import Mathlib

/-!
Verification of the Soul Sense session-idle-timeout subsystem.

Two parts are embedded:

1. The Session Idle Monitor (the `useSessionTimeout` React hook).  Its
   implementation file is not among the supplied sources — only its Jest
   test suite (`src/frontend-web/src/hooks/__tests__/useSessionTimeout.test.tsx`)
   is — so the monitor is modelled from the specification (`spec.md`,
   sections 3–8): a discrete state machine with a 1-second tick, a
   throttled activity reset, a warning countdown and a one-shot expiry
   that calls the Auth Service's `logout()` and shows an error toast.

2. `getSession` / `clearSession` from
   `src/frontend-web/src/lib/utils/sessionStorage.ts`, embedded directly
   from the source.
-/

namespace SessionIdleMonitor

/-- Lifecycle phase of the monitor (spec §3: `state: enum {Active, Warning, Expired}`). -/
inductive Phase where
  | Active
  | Warning
  | Expired
deriving DecidableEq, Repr

/-- Modelled from the spec: configuration surface of `useSessionTimeout`
(spec §6).  The hook source is missing from the repository snapshot; the
defaults correspond to 15 minutes and 30 seconds. -/
structure Config where
  enabled : Bool
  idleTimeoutMs : Nat := 900000
  warningLeadMs : Nat := 30000
deriving DecidableEq, Repr

/-- Tick period: the internal re-evaluation interval (spec §4.1: 1 second). -/
def tickIntervalMs : Nat := 1000

/-- Throttle window for activity resets (spec §4.1: on the order of 1 second). -/
def throttleWindowMs : Nat := 1000

/-- Exact expiry message, part of the observable contract (spec §6). -/
def expiredMessage : String := "Your session has expired due to inactivity. Please log in again."

/-- Exact session-extension message, part of the observable contract (spec §6). -/
def extendedMessage : String := "Session extended"

/-- Modelled from the spec: the observable state of one monitor instance
together with the calls it has made into its collaborators (Auth Service
`logout()`, Notifier error/success toasts).  Times are in milliseconds. -/
@[ext]
structure MState where
  /-- Current simulated wall-clock time. -/
  now : Nat
  /-- Whether the instance is live: `config.enabled && isAuthenticated` at creation. -/
  running : Bool
  /-- Total inactivity budget (config). -/
  idleTimeoutMs : Nat
  /-- Warning lead time (config, clamped defensively at creation, spec §7). -/
  warningLeadMs : Nat
  /-- Timestamp of the last effective activity reset. -/
  lastActivityAt : Nat
  /-- Timestamp of the last throttle flush (spec §9 design note). -/
  lastThrottleFlushAt : Nat
  /-- Lifecycle phase. -/
  phase : Phase
  /-- Whether the warning dialog is shown. -/
  showWarning : Bool
  /-- Countdown seconds, valid in `Warning`, otherwise 0. -/
  remainingSeconds : Nat
  /-- Number of calls made to Auth Service `logout()`. -/
  logoutCalls : Nat
  /-- Error toasts emitted so far (Notifier collaborator). -/
  errorToasts : List String
  /-- Success toasts emitted so far (Notifier collaborator). -/
  successToasts : List String
  /-- Number of live tick timers registered for this monitored context. -/
  activeTimers : Nat
  /-- Number of effective (non-coalesced) activity resets performed. -/
  effectiveResets : Nat
deriving DecidableEq, Repr

/-- Modelled from the spec: instance creation (`start(config)`, spec §4.1).
If `enabled` is false or the Auth Service reports not authenticated, the
monitor is a no-op: no timer is registered, `showWarning=false`,
`remainingSeconds=0`.  The warning lead is clamped below the idle timeout
(spec §7: misconfiguration is rejected or clamped defensively). -/
def init (cfg : Config) (isAuthenticated : Bool) : MState :=
  let live := cfg.enabled && isAuthenticated
  { now := 0
    running := live
    idleTimeoutMs := cfg.idleTimeoutMs
    warningLeadMs := min cfg.warningLeadMs (cfg.idleTimeoutMs - 1)
    lastActivityAt := 0
    lastThrottleFlushAt := 0
    phase := Phase.Active
    showWarning := false
    remainingSeconds := 0
    logoutCalls := 0
    errorToasts := []
    successToasts := []
    activeTimers := if live then 1 else 0
    effectiveResets := 0 }

/-- Modelled from the spec: an effective activity reset (spec §4.1 activity
handling): `lastActivityAt` moves to now, a `Warning` phase returns to
`Active`, the warning is hidden and the countdown cleared. -/
def applyReset (s : MState) : MState :=
  { s with
    lastActivityAt := s.now
    lastThrottleFlushAt := s.now
    phase := Phase.Active
    showWarning := false
    remainingSeconds := 0
    effectiveResets := s.effectiveResets + 1 }

/-- Modelled from the spec: a qualifying interaction event (spec §4.1).
Ignored when the monitor is not live or already `Expired`.  Activity during
`Warning` immediately resets (spec: "Any activity while in `Warning` state
immediately transitions back to `Active`").  Otherwise the reset is
throttled: it is coalesced away unless a full throttle window has passed
since the last flush. -/
def handleActivity (s : MState) : MState :=
  if s.running = false then s
  else if s.phase = Phase.Expired then s
  else if s.phase = Phase.Warning then applyReset s
  else if s.lastThrottleFlushAt + throttleWindowMs ≤ s.now then applyReset s
  else s

/-- Modelled from the spec: the public `resetTimer()` (spec §4.1), a manual
reset equivalent to an activity event, not subject to event throttling. -/
def resetTimer (s : MState) : MState :=
  if s.running = false then s
  else if s.phase = Phase.Expired then s
  else applyReset s

/-- Modelled from the spec: `continueSession()` (spec §4.1): explicit user
acknowledgment during `Warning`; resets `lastActivityAt` to now, returns to
`Active`, hides the warning and emits the success notification. -/
def continueSession (s : MState) : MState :=
  if s.running = false then s
  else if s.phase = Phase.Expired then s
  else
    let s' := applyReset s
    { s' with successToasts := s.successToasts ++ [extendedMessage] }

/-- Modelled from the spec: one tick of the internal timer (spec §4.1 tick
evaluation).  Wall-clock time advances by the tick period; if the monitor
is live and not yet `Expired`, `elapsed = now - lastActivityAt` is
re-evaluated: expiry calls `logout()` once and emits the expired toast;
inside the warning lead the countdown is `ceil((idleTimeoutMs - elapsed)/1000)`;
otherwise the monitor stays `Active`. -/
def tick (s : MState) : MState :=
  let s := { s with now := s.now + tickIntervalMs }
  if s.running = false then s
  else if s.phase = Phase.Expired then s
  else
    let elapsed := s.now - s.lastActivityAt
    if s.idleTimeoutMs ≤ elapsed then
      { s with
        phase := Phase.Expired
        showWarning := false
        remainingSeconds := 0
        logoutCalls := s.logoutCalls + 1
        errorToasts := s.errorToasts ++ [expiredMessage] }
    else if s.idleTimeoutMs - elapsed ≤ s.warningLeadMs then
      { s with
        phase := Phase.Warning
        showWarning := true
        remainingSeconds := (s.idleTimeoutMs - elapsed + 999) / 1000 }
    else
      { s with
        phase := Phase.Active
        showWarning := false
        remainingSeconds := 0 }

/-- Modelled from the spec: a re-render with unchanged configuration
(spec §5: re-initialization first tears down any prior instance, so exactly
one timer survives). -/
def rerender (s : MState) : MState :=
  { s with activeTimers := if s.running then 1 else 0 }

/-- The observable events a monitor instance processes. -/
inductive MEvent where
  | tick
  | activity
  | reset
  | continueSess
  | rerender
deriving DecidableEq, Repr

/-- One step of the monitor on one event. -/
def step (s : MState) (e : MEvent) : MState :=
  match e with
  | MEvent.tick => tick s
  | MEvent.activity => handleActivity s
  | MEvent.reset => resetTimer s
  | MEvent.continueSess => continueSession s
  | MEvent.rerender => rerender s

/-- Run the monitor over a list of events. -/
def runEvents (s : MState) (es : List MEvent) : MState :=
  es.foldl step s

/-- `n` consecutive ticks: advancing simulated time by `n` seconds. -/
def ticks (n : Nat) : List MEvent :=
  List.replicate n MEvent.tick

/-- A burst of `n` activity events with no time advance between them
(all within the throttle window). -/
def burst : Nat → MState → MState
  | 0, s => s
  | n + 1, s => burst n (handleActivity s)

/-- The default test configuration: enabled, 15-minute timeout, 30-second lead. -/
def defaultConfig : Config :=
  { enabled := true, idleTimeoutMs := 900000, warningLeadMs := 30000 }

/-- Invariant satisfied by every reachable state of the monitor:
bookkeeping consistency (throttle flush equals last activity, clocks on the
1-second tick grid), the no-op guarantee when not live, the one-shot nature
of `logout()`, and the countdown formula in `Warning`. -/
def Inv (s : MState) : Prop :=
  s.lastThrottleFlushAt = s.lastActivityAt ∧
  s.lastActivityAt ≤ s.now ∧
  1000 ∣ s.now ∧
  1000 ∣ s.lastActivityAt ∧
  (s.running = true → s.activeTimers = 1) ∧
  (s.running = false → s.activeTimers = 0 ∧ s.phase = Phase.Active ∧
    s.showWarning = false ∧ s.remainingSeconds = 0 ∧ s.logoutCalls = 0 ∧
    s.errorToasts = []) ∧
  (s.phase = Phase.Expired → s.logoutCalls = 1) ∧
  (s.phase ≠ Phase.Expired → s.logoutCalls = 0) ∧
  (s.phase = Phase.Warning →
    s.now - s.lastActivityAt < s.idleTimeoutMs ∧
    s.remainingSeconds =
      (s.idleTimeoutMs - (s.now - s.lastActivityAt) + 999) / 1000 ∧
    s.showWarning = true) ∧
  (s.phase ≠ Phase.Warning → s.showWarning = false ∧ s.remainingSeconds = 0)

/-- The state produced by an activity reset at t = 10 min under the default
configuration. -/
def resetAt600 : MState :=
  { now := 600000
    running := true
    idleTimeoutMs := 900000
    warningLeadMs := 30000
    lastActivityAt := 600000
    lastThrottleFlushAt := 600000
    phase := Phase.Active
    showWarning := false
    remainingSeconds := 0
    logoutCalls := 0
    errorToasts := []
    successToasts := []
    activeTimers := 1
    effectiveResets := 1 }

/-- A live `Active` monitor state 3 seconds past its last reset. -/
def demoActive : MState :=
  { now := 5000
    running := true
    idleTimeoutMs := 900000
    warningLeadMs := 30000
    lastActivityAt := 2000
    lastThrottleFlushAt := 2000
    phase := Phase.Active
    showWarning := false
    remainingSeconds := 0
    logoutCalls := 0
    errorToasts := []
    successToasts := []
    activeTimers := 1
    effectiveResets := 0 }

/-- A live `Warning` monitor state 29 seconds before expiry. -/
def demoWarning : MState :=
  { now := 871000
    running := true
    idleTimeoutMs := 900000
    warningLeadMs := 30000
    lastActivityAt := 0
    lastThrottleFlushAt := 0
    phase := Phase.Warning
    showWarning := true
    remainingSeconds := 29
    logoutCalls := 0
    errorToasts := []
    successToasts := []
    activeTimers := 1
    effectiveResets := 0 }

/-- A small valid configuration: 10-second timeout, 5-second lead. -/
def smallConfig : Config :=
  { enabled := true, idleTimeoutMs := 10000, warningLeadMs := 5000 }

/-- A misconfigured surface: the warning lead exceeds the idle timeout. -/
def misConfig : Config :=
  { enabled := true, idleTimeoutMs := 1000, warningLeadMs := 5000 }

end SessionIdleMonitor

namespace SessionStorageModel

/-- Shape of the stored session record (`SessionData` in sessionStorage.ts). -/
structure SessionData where
  email : String
  userId : Option String
  token : Option String
  expiresAt : Option Nat
  loginTime : Nat
deriving DecidableEq, Repr

/-- The browser storage slots touched by sessionStorage.ts: the session key
in localStorage and in sessionStorage, and the remember-me key in
localStorage.  `none` means the key is absent. -/
structure Browser where
  localSession : Option String
  localRemember : Option String
  sessionSession : Option String
deriving DecidableEq, Repr

/-- JS truthiness of a `localStorage.getItem` result, as tested by
`if (persistedSession)` in getSession: null and the empty string are falsy. -/
def truthy : Option String → Bool
  | none => false
  | some raw => if raw = "" then false else true

/-- `clearSession()` (sessionStorage.ts lines 70–74): removes the session
key from both storages and the remember-me key from localStorage. -/
def clearSession (_b : Browser) : Browser :=
  { localSession := none, localRemember := none, sessionSession := none }

/-- `getSession()` (sessionStorage.ts lines 41–65): checks localStorage
first; a parse failure clears all session storage and returns null;
otherwise it falls back to sessionStorage.  `parse` stands for `JSON.parse`
specialized to `SessionData`, returning `none` where `JSON.parse` throws. -/
def getSession (parse : String → Option SessionData) (b : Browser) :
    Option SessionData × Browser :=
  if truthy b.localSession then
    match parse (b.localSession.getD "") with
    | some d => (some d, b)
    | none => (none, clearSession b)
  else if truthy b.sessionSession then
    match parse (b.sessionSession.getD "") with
    | some d => (some d, b)
    | none => (none, clearSession b)
  else
    (none, b)

/-- A sample parsed session record. -/
def demoData : SessionData :=
  { email := "user@example.com", userId := none, token := none,
    expiresAt := none, loginTime := 0 }

/-- A stand-in for `JSON.parse` on session payloads: only the literal string
"valid" parses; every other string (the empty string included) throws. -/
def demoParse : String → Option SessionData :=
  fun raw => if raw = "valid" then some demoData else none

/-- A browser whose localStorage session value is the empty string (not
valid JSON) while sessionStorage holds a parseable session. -/
def emptyLocalBrowser : Browser :=
  { localSession := some "", localRemember := none, sessionSession := some "valid" }

/-- A browser whose localStorage session value is non-empty garbage while
sessionStorage holds a parseable session. -/
def badLocalBrowser : Browser :=
  { localSession := some "garbage", localRemember := some "true",
    sessionSession := some "valid" }

end SessionStorageModel

namespace SessionIdleMonitor

theorem runEvents_nil (s : MState) : runEvents s [] = s := rfl

theorem runEvents_append (s : MState) (es fs : List MEvent) :
    runEvents s (es ++ fs) = runEvents (runEvents s es) fs :=
  List.foldl_append step s es fs

theorem runEvents_ticks_succ (s : MState) (n : Nat) :
    runEvents s (ticks (n + 1)) = tick (runEvents s (ticks n)) := by
  simp [ticks, List.replicate_succ', runEvents, step]

/-- Closed form for `n` ticks of inactivity from a freshly reset state, while
the idle budget is not yet exhausted: time advances, and the monitor is in
`Warning` with the ceiling countdown exactly when the remaining budget is
within the warning lead. -/
theorem runEvents_ticks_closed (s : MState)
    (hrun : s.running = true) (hphase : s.phase = Phase.Active)
    (hnow : s.now = s.lastActivityAt)
    (hshow : s.showWarning = false) (hrem : s.remainingSeconds = 0)
    (hW : s.warningLeadMs < s.idleTimeoutMs) :
    ∀ n : Nat, 1000 * n < s.idleTimeoutMs →
      runEvents s (ticks n) =
        { s with
          now := s.lastActivityAt + 1000 * n
          phase := if s.idleTimeoutMs - 1000 * n ≤ s.warningLeadMs
            then Phase.Warning else Phase.Active
          showWarning := if s.idleTimeoutMs - 1000 * n ≤ s.warningLeadMs
            then true else false
          remainingSeconds := if s.idleTimeoutMs - 1000 * n ≤ s.warningLeadMs
            then (s.idleTimeoutMs - 1000 * n + 999) / 1000 else 0 } := by
  intro n
  induction n with
  | zero =>
    intro _
    have hcond : ¬ (s.idleTimeoutMs - 1000 * 0 ≤ s.warningLeadMs) := by omega
    simp only [if_neg hcond]
    simp only [ticks, List.replicate, runEvents, List.foldl]
    apply MState.ext <;> simp [hnow, hphase, hshow, hrem]
  | succ n ih =>
    intro hn
    have hn' : 1000 * n < s.idleTimeoutMs := by omega
    have hexp : ¬ (s.idleTimeoutMs ≤
        s.lastActivityAt + 1000 * n + 1000 - s.lastActivityAt) := by omega
    rw [runEvents_ticks_succ, ih hn']
    by_cases hc : s.idleTimeoutMs - 1000 * n ≤ s.warningLeadMs
    · have hc' : s.idleTimeoutMs - 1000 * (n + 1) ≤ s.warningLeadMs := by omega
      simp only [if_pos hc, if_pos hc']
      simp [tick, tickIntervalMs, hrun, hexp]
      rw [if_pos (show s.idleTimeoutMs ≤ s.warningLeadMs +
        (s.lastActivityAt + 1000 * n + 1000 - s.lastActivityAt) by omega)]
      simp only [MState.mk.injEq]
      simp only [and_true, true_and, and_self]
      omega
    · by_cases hc' : s.idleTimeoutMs - 1000 * (n + 1) ≤ s.warningLeadMs
      · simp only [if_neg hc, if_pos hc']
        simp [tick, tickIntervalMs, hrun, hexp]
        rw [if_pos (show s.idleTimeoutMs ≤ s.warningLeadMs +
          (s.lastActivityAt + 1000 * n + 1000 - s.lastActivityAt) by omega)]
        simp only [MState.mk.injEq]
        simp only [and_true, true_and, and_self]
        omega
      · simp only [if_neg hc, if_neg hc']
        simp [tick, tickIntervalMs, hrun, hexp]
        rw [if_neg (show ¬ (s.idleTimeoutMs ≤ s.warningLeadMs +
          (s.lastActivityAt + 1000 * n + 1000 - s.lastActivityAt)) by omega)]
        simp only [MState.mk.injEq]
        simp only [and_true, true_and, and_self]
        omega

/-- Expiry step: when the idle budget runs out strictly between tick `n` and
tick `n + 1` (measured from a freshly reset state), tick `n + 1` performs the
one-shot expiry: exactly one `logout()` call and one expired toast are added. -/
theorem runEvents_ticks_expire (s : MState)
    (hrun : s.running = true) (hphase : s.phase = Phase.Active)
    (hnow : s.now = s.lastActivityAt)
    (hshow : s.showWarning = false) (hrem : s.remainingSeconds = 0)
    (hW : s.warningLeadMs < s.idleTimeoutMs)
    (n : Nat) (hn : 1000 * n < s.idleTimeoutMs)
    (hn1 : s.idleTimeoutMs ≤ 1000 * (n + 1)) :
    runEvents s (ticks (n + 1)) =
      { s with
        now := s.lastActivityAt + 1000 * (n + 1)
        phase := Phase.Expired
        showWarning := false
        remainingSeconds := 0
        logoutCalls := s.logoutCalls + 1
        errorToasts := s.errorToasts ++ [expiredMessage] } := by
  rw [runEvents_ticks_succ,
    runEvents_ticks_closed s hrun hphase hnow hshow hrem hW n hn]
  by_cases hc : s.idleTimeoutMs - 1000 * n ≤ s.warningLeadMs
  · simp only [if_pos hc]
    simp [tick, tickIntervalMs, hrun]
    rw [if_pos (show s.idleTimeoutMs ≤
      s.lastActivityAt + 1000 * n + 1000 - s.lastActivityAt by omega)]
    simp only [MState.mk.injEq]
    simp only [and_true, true_and, and_self]
    omega
  · simp only [if_neg hc]
    simp [tick, tickIntervalMs, hrun]
    rw [if_pos (show s.idleTimeoutMs ≤
      s.lastActivityAt + 1000 * n + 1000 - s.lastActivityAt by omega)]
    simp only [MState.mk.injEq]
    simp only [and_true, true_and, and_self]
    omega

/-- `applyReset` produces a state that again satisfies the fresh-reset
hypotheses of the closed-form tick lemmas. -/
theorem applyReset_fresh (s : MState) :
    (applyReset s).running = s.running ∧
    (applyReset s).phase = Phase.Active ∧
    (applyReset s).now = (applyReset s).lastActivityAt ∧
    (applyReset s).showWarning = false ∧
    (applyReset s).remainingSeconds = 0 ∧
    (applyReset s).warningLeadMs = s.warningLeadMs ∧
    (applyReset s).idleTimeoutMs = s.idleTimeoutMs ∧
    (applyReset s).logoutCalls = s.logoutCalls ∧
    (applyReset s).lastActivityAt = s.now := by
  simp [applyReset]

theorem Inv_init (cfg : Config) (isAuthenticated : Bool) :
    Inv (init cfg isAuthenticated) := by
  cases h : (cfg.enabled && isAuthenticated) <;> simp [Inv, init, h]

theorem Inv_applyReset (s : MState) (h : Inv s)
    (hrun : s.running = true) (hex : s.phase ≠ Phase.Expired) :
    Inv (applyReset s) := by
  obtain ⟨h1, h2, h3, h4, h5, h6, h7, h8, h9, h10⟩ := h
  refine ⟨rfl, le_refl _, h3, h3, ?_, ?_, ?_, ?_, ?_, ?_⟩ <;>
    simp [applyReset, hrun, h5 hrun, h8 hex]

theorem Inv_handleActivity (s : MState) (h : Inv s) : Inv (handleActivity s) := by
  unfold handleActivity
  by_cases hr : s.running = false
  · simp [hr]; exact h
  · have hrun : s.running = true := by revert hr; cases s.running <;> simp
    by_cases hex : s.phase = Phase.Expired
    · simp [hrun, hex]; exact h
    · by_cases hw : s.phase = Phase.Warning
      · simp [hrun, hex, hw]
        exact Inv_applyReset s h hrun hex
      · simp [hrun, hex, hw]
        by_cases hg : s.lastThrottleFlushAt + throttleWindowMs ≤ s.now
        · simp [hg]; exact Inv_applyReset s h hrun hex
        · simp [hg]; exact h

theorem Inv_resetTimer (s : MState) (h : Inv s) : Inv (resetTimer s) := by
  unfold resetTimer
  by_cases hr : s.running = false
  · simp [hr]; exact h
  · have hrun : s.running = true := by revert hr; cases s.running <;> simp
    by_cases hex : s.phase = Phase.Expired
    · simp [hrun, hex]; exact h
    · simp [hrun, hex]; exact Inv_applyReset s h hrun hex

theorem Inv_continueSession (s : MState) (h : Inv s) : Inv (continueSession s) := by
  unfold continueSession
  by_cases hr : s.running = false
  · simp [hr]; exact h
  · have hrun : s.running = true := by revert hr; cases s.running <;> simp
    by_cases hex : s.phase = Phase.Expired
    · simp [hrun, hex]; exact h
    · simp only [hrun, hex, if_neg, if_false]
      have hres := Inv_applyReset s h hrun hex
      obtain ⟨h1, h2, h3, h4, h5, h6, h7, h8, h9, h10⟩ := hres
      obtain ⟨g1, g2, g3, g4, g5, g6, g7, g8, g9, g10⟩ := h
      refine ⟨h1, h2, h3, h4, ?_, ?_, ?_, ?_, ?_, ?_⟩ <;>
        simp_all [applyReset, hrun]

theorem Inv_advance (s : MState) (h : Inv s) (hph : s.phase ≠ Phase.Warning) :
    Inv { s with now := s.now + 1000 } := by
  obtain ⟨h1, h2, h3, h4, h5, h6, h7, h8, h9, h10⟩ := h
  refine ⟨h1, show s.lastActivityAt ≤ s.now + 1000 by omega,
    show (1000 : Nat) ∣ s.now + 1000 by omega, h4, h5, h6, h7, h8, ?_, h10⟩
  intro hw
  exact absurd hw hph

theorem Inv_tick (s : MState) (h : Inv s) : Inv (tick s) := by
  have hInv := h
  obtain ⟨h1, h2, h3, h4, h5, h6, h7, h8, h9, h10⟩ := h
  dsimp only [tick, tickIntervalMs]
  split
  · next hrf =>
    exact Inv_advance s hInv (by simp [(h6 hrf).2.1])
  · next hrf =>
    have hrun : s.running = true := by revert hrf; cases s.running <;> simp
    split
    · next hex => exact Inv_advance s hInv (by simp [hex])
    · next hex =>
      split
      · next hb1 =>
        refine ⟨h1, show s.lastActivityAt ≤ s.now + 1000 by omega,
          show (1000 : Nat) ∣ s.now + 1000 by omega, h4, h5, ?_, ?_, ?_, ?_, ?_⟩
        · intro hf; rw [hrun] at hf; cases hf
        · intro _
          show s.logoutCalls + 1 = 1
          have := h8 hex; omega
        · intro hne; exact absurd rfl hne
        · intro hw; exact absurd hw (by simp)
        · intro _; exact ⟨rfl, rfl⟩
      · split
        · next hb2 =>
          refine ⟨h1, show s.lastActivityAt ≤ s.now + 1000 by omega,
            show (1000 : Nat) ∣ s.now + 1000 by omega, h4, h5, ?_, ?_, ?_, ?_, ?_⟩
          · intro hf; rw [hrun] at hf; cases hf
          · intro hw; exact absurd hw (by simp)
          · intro _; exact h8 hex
          · intro _
            refine ⟨show s.now + 1000 - s.lastActivityAt < s.idleTimeoutMs by omega,
              rfl, rfl⟩
          · intro hnw; exact absurd rfl hnw
        · next hb2 =>
          refine ⟨h1, show s.lastActivityAt ≤ s.now + 1000 by omega,
            show (1000 : Nat) ∣ s.now + 1000 by omega, h4, h5, ?_, ?_, ?_, ?_, ?_⟩
          · intro hf; rw [hrun] at hf; cases hf
          · intro hw; exact absurd hw (by simp)
          · intro _; exact h8 hex
          · intro hw; exact absurd hw (by simp)
          · intro _; exact ⟨rfl, rfl⟩

theorem Inv_rerender (s : MState) (h : Inv s) : Inv (rerender s) := by
  obtain ⟨h1, h2, h3, h4, h5, h6, h7, h8, h9, h10⟩ := h
  by_cases hr : s.running = true
  · refine ⟨h1, h2, h3, h4, ?_, ?_, h7, h8, h9, h10⟩ <;> simp [rerender, hr]
  · have hr' : s.running = false := by revert hr; cases s.running <;> simp
    refine ⟨h1, h2, h3, h4, ?_, ?_, h7, h8, h9, h10⟩ <;> simp [rerender, hr']
    exact (h6 hr').2

theorem Inv_step (s : MState) (e : MEvent) (h : Inv s) : Inv (step s e) := by
  cases e with
  | tick => exact Inv_tick s h
  | activity => exact Inv_handleActivity s h
  | reset => exact Inv_resetTimer s h
  | continueSess => exact Inv_continueSession s h
  | rerender => exact Inv_rerender s h

theorem Inv_runEvents (s : MState) (es : List MEvent) (h : Inv s) :
    Inv (runEvents s es) := by
  induction es generalizing s with
  | nil => exact h
  | cons e es ih => exact ih (step s e) (Inv_step s e h)

theorem Inv_reachable (cfg : Config) (isAuthenticated : Bool) (es : List MEvent) :
    Inv (runEvents (init cfg isAuthenticated) es) :=
  Inv_runEvents _ es (Inv_init cfg isAuthenticated)

/-- No event changes whether the monitor instance is live. -/
theorem step_running (s : MState) (e : MEvent) : (step s e).running = s.running := by
  cases e <;>
    dsimp only [step, tick, handleActivity, resetTimer, continueSession, rerender,
      tickIntervalMs, throttleWindowMs] <;>
    (repeat' split) <;> simp [applyReset]

theorem runEvents_running (s : MState) (es : List MEvent) :
    (runEvents s es).running = s.running := by
  induction es generalizing s with
  | nil => rfl
  | cons e es ih => rw [show runEvents s (e :: es) = runEvents (step s e) es from rfl,
      ih (step s e), step_running]

/-- For a live, non-expired instance, one tick is exactly the three-way
branch of the spec's tick evaluation. -/
theorem tick_eq_of_live (s : MState) (hrun : s.running = true)
    (hex : s.phase ≠ Phase.Expired) :
    tick s =
      if s.idleTimeoutMs ≤ s.now + 1000 - s.lastActivityAt then
        { s with
          now := s.now + 1000
          phase := Phase.Expired
          showWarning := false
          remainingSeconds := 0
          logoutCalls := s.logoutCalls + 1
          errorToasts := s.errorToasts ++ [expiredMessage] }
      else if s.idleTimeoutMs - (s.now + 1000 - s.lastActivityAt) ≤ s.warningLeadMs then
        { s with
          now := s.now + 1000
          phase := Phase.Warning
          showWarning := true
          remainingSeconds :=
            (s.idleTimeoutMs - (s.now + 1000 - s.lastActivityAt) + 999) / 1000 }
      else
        { s with
          now := s.now + 1000
          phase := Phase.Active
          showWarning := false
          remainingSeconds := 0 } := by
  dsimp only [tick, tickIntervalMs]
  rw [if_neg (show ¬ (s.running = false) by simp [hrun]), if_neg hex]

/-- For a live, non-expired instance, `handleActivity` reduces to the
spec's activity handling: warning-clearing reset, throttled reset, or a
coalesced no-op. -/
theorem handleActivity_eq_of_live (s : MState) (hrun : s.running = true)
    (hex : s.phase ≠ Phase.Expired) :
    handleActivity s =
      if s.phase = Phase.Warning then applyReset s
      else if s.lastThrottleFlushAt + throttleWindowMs ≤ s.now then applyReset s
      else s := by
  dsimp only [handleActivity]
  rw [if_neg (show ¬ (s.running = false) by simp [hrun]), if_neg hex]

/-- An activity event is idempotent when no time passes between repeats:
the second of two back-to-back events is always coalesced. -/
theorem handleActivity_idem (s : MState) :
    handleActivity (handleActivity s) = handleActivity s := by
  by_cases hr : s.running = false
  · simp [handleActivity, hr]
  · have hrun : s.running = true := by revert hr; cases s.running <;> simp
    by_cases hex : s.phase = Phase.Expired
    · simp [handleActivity, hrun, hex]
    · rw [handleActivity_eq_of_live s hrun hex]
      have hreset : handleActivity (applyReset s) = applyReset s := by
        dsimp only [handleActivity]
        rw [if_neg (show ¬ ((applyReset s).running = false) by simp [applyReset, hrun]),
          if_neg (show ¬ ((applyReset s).phase = Phase.Expired) by simp [applyReset]),
          if_neg (show ¬ ((applyReset s).phase = Phase.Warning) by simp [applyReset]),
          if_neg (show ¬ ((applyReset s).lastThrottleFlushAt + throttleWindowMs ≤
            (applyReset s).now) by simp [applyReset, throttleWindowMs])]
      by_cases hw : s.phase = Phase.Warning
      · rw [if_pos hw]; exact hreset
      · rw [if_neg hw]
        by_cases hg : s.lastThrottleFlushAt + throttleWindowMs ≤ s.now
        · rw [if_pos hg]; exact hreset
        · rw [if_neg hg, handleActivity_eq_of_live s hrun hex, if_neg hw, if_neg hg]

/-- An activity event either does nothing or performs one effective reset. -/
theorem handleActivity_cases (s : MState) :
    handleActivity s = s ∨ handleActivity s = applyReset s := by
  dsimp only [handleActivity]
  repeat' split
  all_goals first | exact Or.inl rfl | exact Or.inr rfl

/-- A burst of at least one back-to-back activity event collapses to a
single activity event. -/
theorem burst_ge_one (n : Nat) (s : MState) (hn : 1 ≤ n) :
    burst n s = handleActivity s := by
  induction n generalizing s with
  | zero => exact absurd hn (by omega)
  | succ n ih =>
    cases Nat.eq_zero_or_pos n with
    | inl h0 => subst h0; rfl
    | inr hpos =>
      show burst n (handleActivity s) = handleActivity s
      rw [ih (handleActivity s) hpos, handleActivity_idem]

/-- C1: with `idleTimeoutMs = 15 min` and `warningLeadMs = 30 s`, advancing
simulated time to exactly 14 min 30 s with no activity makes `showWarning`
true with `remainingSeconds = 30`, and advancing to 15 min produces exactly
one Auth Service `logout()` call and exactly one expired notification with
the message "Your session has expired due to inactivity. Please log in
again.". -/
theorem claim_C1_timeout_scenario :
    (runEvents (init defaultConfig true) (ticks 870)).showWarning = true ∧
    (runEvents (init defaultConfig true) (ticks 870)).remainingSeconds = 30 ∧
    (runEvents (init defaultConfig true) (ticks 900)).logoutCalls = 1 ∧
    (runEvents (init defaultConfig true) (ticks 900)).errorToasts = [expiredMessage] := by
  have hW : (init defaultConfig true).warningLeadMs <
      (init defaultConfig true).idleTimeoutMs := by decide
  have h870 := runEvents_ticks_closed (init defaultConfig true)
    rfl rfl rfl rfl rfl hW 870 (by decide)
  have h900 := runEvents_ticks_expire (init defaultConfig true)
    rfl rfl rfl rfl rfl hW 899 (by decide) (by decide)
  have e900 : ticks (899 + 1) = ticks 900 := rfl
  rw [e900] at h900
  refine ⟨?_, ?_, ?_, ?_⟩
  · rw [h870]; decide
  · rw [h870]; decide
  · rw [h900]; decide
  · rw [h900]; decide

/-- C2: whenever `enabled = false` or the Auth Service reports
`isAuthenticated = false`, the monitor is a no-op for every event sequence:
no tick timer is registered, `logout()` is never called, no expired toast is
shown, `showWarning` stays false and `remainingSeconds` stays 0. -/
theorem claim_C2_disabled_noop (cfg : Config) (isAuthenticated : Bool)
    (es : List MEvent)
    (hdis : cfg.enabled = false ∨ isAuthenticated = false) :
    (runEvents (init cfg isAuthenticated) es).activeTimers = 0 ∧
    (runEvents (init cfg isAuthenticated) es).logoutCalls = 0 ∧
    (runEvents (init cfg isAuthenticated) es).errorToasts = [] ∧
    (runEvents (init cfg isAuthenticated) es).showWarning = false ∧
    (runEvents (init cfg isAuthenticated) es).remainingSeconds = 0 := by
  have hrun : (runEvents (init cfg isAuthenticated) es).running = false := by
    rw [runEvents_running]
    rcases hdis with h | h <;> simp [init, h]
  obtain ⟨_, _, _, _, _, h6, _, _, _, _⟩ := Inv_reachable cfg isAuthenticated es
  obtain ⟨ht, _, hsw, hrs, hlc, het⟩ := h6 hrun
  exact ⟨ht, hlc, het, hsw, hrs⟩

/-- C7: for every event sequence (re-renders included) on an enabled,
authenticated monitor, exactly one tick timer is active at every point, and
`logout()` is called at most once. -/
theorem claim_C7_rerender_stability (cfg : Config) (es : List MEvent)
    (hen : cfg.enabled = true) :
    (runEvents (init cfg true) es).activeTimers = 1 ∧
    (runEvents (init cfg true) es).logoutCalls ≤ 1 := by
  have hrun : (runEvents (init cfg true) es).running = true := by
    rw [runEvents_running]; simp [init, hen]
  obtain ⟨_, _, _, _, h5, _, h7, h8, _, _⟩ := Inv_reachable cfg true es
  refine ⟨h5 hrun, ?_⟩
  by_cases hex : (runEvents (init cfg true) es).phase = Phase.Expired
  · rw [h7 hex]
  · rw [h8 hex]; omega

/-- C9: a configuration with `warningLeadMs ≥ idleTimeoutMs` is clamped
defensively at creation (the effective lead stays below the timeout), and in
every reachable `Warning` state the countdown is a positive integer — it can
never go negative. -/
theorem claim_C9_no_negative_countdown :
    (∀ (cfg : Config) (isAuthenticated : Bool), 0 < cfg.idleTimeoutMs →
      (init cfg isAuthenticated).warningLeadMs <
        (init cfg isAuthenticated).idleTimeoutMs) ∧
    (∀ (cfg : Config) (isAuthenticated : Bool) (es : List MEvent),
      (runEvents (init cfg isAuthenticated) es).phase = Phase.Warning →
      1 ≤ (runEvents (init cfg isAuthenticated) es).remainingSeconds) := by
  constructor
  · intro cfg isAuthenticated hT
    show min cfg.warningLeadMs (cfg.idleTimeoutMs - 1) < cfg.idleTimeoutMs
    omega
  · intro cfg isAuthenticated es hw
    obtain ⟨_, _, _, _, _, _, _, _, h9, _⟩ := Inv_reachable cfg isAuthenticated es
    obtain ⟨hlt, hrem, _⟩ := h9 hw
    rw [hrem]
    omega

/-- C4: any qualifying activity event arriving while the monitor is live and
in `Warning` immediately returns it to `Active`, hides the warning, clears
`remainingSeconds` to 0, and moves `lastActivityAt` to the current time. -/
theorem claim_C4_activity_clears_warning (s : MState)
    (hrun : s.running = true) (hw : s.phase = Phase.Warning) :
    (handleActivity s).phase = Phase.Active ∧
    (handleActivity s).showWarning = false ∧
    (handleActivity s).remainingSeconds = 0 ∧
    (handleActivity s).lastActivityAt = s.now := by
  have hex : s.phase ≠ Phase.Expired := by simp [hw]
  rw [handleActivity_eq_of_live s hrun hex, if_pos hw]
  simp [applyReset]

/-- C5: `continueSession()` while the monitor is live and in `Warning` hides
the warning, clears `remainingSeconds` to 0, emits exactly one success
notification with the message "Session extended", and resets
`lastActivityAt` to the current time so idle time is measured fresh. -/
theorem claim_C5_continue_session (s : MState)
    (hrun : s.running = true) (hw : s.phase = Phase.Warning) :
    (continueSession s).showWarning = false ∧
    (continueSession s).remainingSeconds = 0 ∧
    (continueSession s).successToasts = s.successToasts ++ [extendedMessage] ∧
    (continueSession s).lastActivityAt = s.now ∧
    (continueSession s).phase = Phase.Active := by
  have hex : s.phase ≠ Phase.Expired := by simp [hw]
  dsimp only [continueSession]
  rw [if_neg (show ¬ (s.running = false) by simp [hrun]), if_neg hex]
  simp [applyReset]

/-- C8: a burst of ten or more back-to-back activity events (all inside the
throttle window) collapses to a single event and performs at most one
effective reset; yet throttling never starves resets — once a full throttle
window has passed since the last flush, a qualifying event on a live,
non-expired monitor always performs an effective reset of `lastActivityAt`. -/
theorem claim_C8_throttling (s : MState) :
    (∀ n : Nat, 10 ≤ n →
      burst n s = handleActivity s ∧
      (burst n s).effectiveResets ≤ s.effectiveResets + 1) ∧
    (s.running = true → s.phase ≠ Phase.Expired →
      s.lastThrottleFlushAt + throttleWindowMs ≤ s.now →
      (handleActivity s).lastActivityAt = s.now ∧
      (handleActivity s).effectiveResets = s.effectiveResets + 1) := by
  constructor
  · intro n hn
    have hb := burst_ge_one n s (by omega)
    refine ⟨hb, ?_⟩
    rw [hb]
    rcases handleActivity_cases s with hcase | hcase <;> rw [hcase] <;>
      simp [applyReset]
  · intro hrun hex hg
    rw [handleActivity_eq_of_live s hrun hex]
    by_cases hw : s.phase = Phase.Warning
    · rw [if_pos hw]; simp [applyReset]
    · rw [if_neg hw, if_pos hg]; simp [applyReset]

theorem activity_at_600 :
    handleActivity (runEvents (init defaultConfig true) (ticks 600)) = resetAt600 := by
  have hW : (init defaultConfig true).warningLeadMs <
      (init defaultConfig true).idleTimeoutMs := by decide
  rw [runEvents_ticks_closed (init defaultConfig true)
    rfl rfl rfl rfl rfl hW 600 (by decide)]
  decide

theorem run_after_activity (k : Nat) :
    runEvents (init defaultConfig true) (ticks 600 ++ MEvent.activity :: ticks k) =
      runEvents resetAt600 (ticks k) := by
  rw [runEvents_append]
  rw [show ∀ y : MState, runEvents y (MEvent.activity :: ticks k) =
      runEvents (handleActivity y) (ticks k) from fun y => rfl]
  rw [activity_at_600]

/-- C3: on a live, non-expired monitor, the public `resetTimer()` always
moves `lastActivityAt` to the current time, and on every reachable live,
non-expired state so does a qualifying activity event; after an activity
reset at t = 10 min under the default configuration, `logout()` has not been
called at t = 15 min or t = 20 min, and has been called exactly once at
t = 25 min (a full 15 minutes of inactivity after the reset). -/
theorem claim_C3_activity_reset :
    (∀ s : MState, s.running = true → s.phase ≠ Phase.Expired →
      (resetTimer s).lastActivityAt = s.now) ∧
    (∀ (cfg : Config) (isAuthenticated : Bool) (es : List MEvent),
      (runEvents (init cfg isAuthenticated) es).running = true →
      (runEvents (init cfg isAuthenticated) es).phase ≠ Phase.Expired →
      (handleActivity (runEvents (init cfg isAuthenticated) es)).lastActivityAt =
        (runEvents (init cfg isAuthenticated) es).now) ∧
    (runEvents (init defaultConfig true)
      (ticks 600 ++ MEvent.activity :: ticks 300)).logoutCalls = 0 ∧
    (runEvents (init defaultConfig true)
      (ticks 600 ++ MEvent.activity :: ticks 600)).logoutCalls = 0 ∧
    (runEvents (init defaultConfig true)
      (ticks 600 ++ MEvent.activity :: ticks 900)).logoutCalls = 1 := by
  refine ⟨?_, ?_, ?_, ?_, ?_⟩
  · intro s hrun hex
    dsimp only [resetTimer]
    rw [if_neg (show ¬ (s.running = false) by simp [hrun]), if_neg hex]
    simp [applyReset]
  · intro cfg isAuthenticated es hrun hex
    obtain ⟨h1, h2, h3, h4, _, _, _, _, _, _⟩ := Inv_reachable cfg isAuthenticated es
    rw [handleActivity_eq_of_live _ hrun hex]
    by_cases hw : (runEvents (init cfg isAuthenticated) es).phase = Phase.Warning
    · rw [if_pos hw]; simp [applyReset]
    · rw [if_neg hw]
      by_cases hg : (runEvents (init cfg isAuthenticated) es).lastThrottleFlushAt +
          throttleWindowMs ≤ (runEvents (init cfg isAuthenticated) es).now
      · rw [if_pos hg]; simp [applyReset]
      · rw [if_neg hg]
        rw [h1] at hg
        simp only [throttleWindowMs] at hg
        omega
  · rw [run_after_activity 300,
      runEvents_ticks_closed resetAt600 rfl rfl rfl rfl rfl (by decide) 300 (by decide)]
    decide
  · rw [run_after_activity 600,
      runEvents_ticks_closed resetAt600 rfl rfl rfl rfl rfl (by decide) 600 (by decide)]
    decide
  · have h := runEvents_ticks_expire resetAt600
      rfl rfl rfl rfl rfl (by decide) 899 (by decide) (by decide)
    rw [run_after_activity 900, show ticks 900 = ticks (899 + 1) from rfl, h]
    decide

/-- C6: in every reachable `Warning` state, a tick that stays in `Warning`
strictly decreases `remainingSeconds` by exactly one second; concretely,
under the default configuration the countdown reads 30 at the warning
threshold (14 min 30 s) and 25 after five further seconds of inactivity. -/
theorem claim_C6_countdown_monotonic :
    (∀ (cfg : Config) (isAuthenticated : Bool) (es : List MEvent),
      (runEvents (init cfg isAuthenticated) es).phase = Phase.Warning →
      (tick (runEvents (init cfg isAuthenticated) es)).phase = Phase.Warning →
      (tick (runEvents (init cfg isAuthenticated) es)).remainingSeconds + 1 =
        (runEvents (init cfg isAuthenticated) es).remainingSeconds) ∧
    (runEvents (init defaultConfig true) (ticks 870)).remainingSeconds = 30 ∧
    (runEvents (init defaultConfig true) (ticks 875)).remainingSeconds = 25 := by
  have hW : (init defaultConfig true).warningLeadMs <
      (init defaultConfig true).idleTimeoutMs := by decide
  refine ⟨?_, ?_, ?_⟩
  · intro cfg isAuthenticated es hw htw
    obtain ⟨h1, h2, h3, h4, h5, h6, h7, h8, h9, h10⟩ :=
      Inv_reachable cfg isAuthenticated es
    have hrun : (runEvents (init cfg isAuthenticated) es).running = true := by
      cases hr : (runEvents (init cfg isAuthenticated) es).running
      · exact absurd hw (by simp [(h6 hr).2.1])
      · rfl
    have hex : (runEvents (init cfg isAuthenticated) es).phase ≠ Phase.Expired := by
      simp [hw]
    obtain ⟨hlt, hrem, _⟩ := h9 hw
    rw [tick_eq_of_live _ hrun hex] at htw ⊢
    by_cases hb1 : (runEvents (init cfg isAuthenticated) es).idleTimeoutMs ≤
        (runEvents (init cfg isAuthenticated) es).now + 1000 -
        (runEvents (init cfg isAuthenticated) es).lastActivityAt
    · rw [if_pos hb1] at htw
      exact absurd htw (by simp)
    · rw [if_neg hb1] at htw ⊢
      by_cases hb2 : (runEvents (init cfg isAuthenticated) es).idleTimeoutMs -
          ((runEvents (init cfg isAuthenticated) es).now + 1000 -
            (runEvents (init cfg isAuthenticated) es).lastActivityAt) ≤
          (runEvents (init cfg isAuthenticated) es).warningLeadMs
      · rw [if_pos hb2] at htw ⊢
        show ((runEvents (init cfg isAuthenticated) es).idleTimeoutMs -
          ((runEvents (init cfg isAuthenticated) es).now + 1000 -
            (runEvents (init cfg isAuthenticated) es).lastActivityAt) + 999) / 1000 + 1 =
          (runEvents (init cfg isAuthenticated) es).remainingSeconds
        rw [hrem]
        omega
      · rw [if_neg hb2] at htw
        exact absurd htw (by simp)
  · rw [runEvents_ticks_closed (init defaultConfig true)
      rfl rfl rfl rfl rfl hW 870 (by decide)]
    decide
  · rw [runEvents_ticks_closed (init defaultConfig true)
      rfl rfl rfl rfl rfl hW 875 (by decide)]
    decide

theorem claim_C2_witness :
    ({ enabled := false : Config }).enabled = false ∧
    ((runEvents (init { enabled := false } true)
        [MEvent.tick, MEvent.tick]).activeTimers = 0 ∧
      (runEvents (init { enabled := false } true)
        [MEvent.tick, MEvent.tick]).logoutCalls = 0 ∧
      (runEvents (init { enabled := false } true)
        [MEvent.tick, MEvent.tick]).errorToasts = [] ∧
      (runEvents (init { enabled := false } true)
        [MEvent.tick, MEvent.tick]).showWarning = false ∧
      (runEvents (init { enabled := false } true)
        [MEvent.tick, MEvent.tick]).remainingSeconds = 0) :=
  ⟨rfl, claim_C2_disabled_noop { enabled := false } true
    [MEvent.tick, MEvent.tick] (Or.inl rfl)⟩

theorem claim_C3_witness :
    demoActive.running = true ∧ demoActive.phase ≠ Phase.Expired ∧
    (resetTimer demoActive).lastActivityAt = demoActive.now ∧
    (runEvents (init smallConfig true) [MEvent.tick]).running = true ∧
    (handleActivity (runEvents (init smallConfig true) [MEvent.tick])).lastActivityAt =
      (runEvents (init smallConfig true) [MEvent.tick]).now :=
  ⟨rfl, by decide, claim_C3_activity_reset.1 demoActive rfl (by decide),
    by decide,
    claim_C3_activity_reset.2.1 smallConfig true [MEvent.tick] (by decide) (by decide)⟩

theorem claim_C4_witness :
    demoWarning.running = true ∧ demoWarning.phase = Phase.Warning ∧
    ((handleActivity demoWarning).phase = Phase.Active ∧
      (handleActivity demoWarning).showWarning = false ∧
      (handleActivity demoWarning).remainingSeconds = 0 ∧
      (handleActivity demoWarning).lastActivityAt = demoWarning.now) :=
  ⟨rfl, rfl, claim_C4_activity_clears_warning demoWarning rfl rfl⟩

theorem claim_C5_witness :
    demoWarning.running = true ∧ demoWarning.phase = Phase.Warning ∧
    ((continueSession demoWarning).showWarning = false ∧
      (continueSession demoWarning).remainingSeconds = 0 ∧
      (continueSession demoWarning).successToasts =
        demoWarning.successToasts ++ [extendedMessage] ∧
      (continueSession demoWarning).lastActivityAt = demoWarning.now ∧
      (continueSession demoWarning).phase = Phase.Active) :=
  ⟨rfl, rfl, claim_C5_continue_session demoWarning rfl rfl⟩

theorem claim_C6_witness :
    (runEvents (init smallConfig true) (ticks 6)).phase = Phase.Warning ∧
    (tick (runEvents (init smallConfig true) (ticks 6))).phase = Phase.Warning ∧
    (tick (runEvents (init smallConfig true) (ticks 6))).remainingSeconds + 1 =
      (runEvents (init smallConfig true) (ticks 6)).remainingSeconds :=
  ⟨by decide, by decide,
    claim_C6_countdown_monotonic.1 smallConfig true (ticks 6) (by decide) (by decide)⟩

theorem claim_C7_witness :
    defaultConfig.enabled = true ∧
    (runEvents (init defaultConfig true)
      [MEvent.rerender, MEvent.rerender, MEvent.tick]).activeTimers = 1 ∧
    (runEvents (init defaultConfig true)
      [MEvent.rerender, MEvent.rerender, MEvent.tick]).logoutCalls ≤ 1 :=
  ⟨rfl,
    (claim_C7_rerender_stability defaultConfig
      [MEvent.rerender, MEvent.rerender, MEvent.tick] rfl).1,
    (claim_C7_rerender_stability defaultConfig
      [MEvent.rerender, MEvent.rerender, MEvent.tick] rfl).2⟩

theorem claim_C8_witness :
    (burst 10 demoActive = handleActivity demoActive ∧
      (burst 10 demoActive).effectiveResets ≤ demoActive.effectiveResets + 1) ∧
    (demoActive.running = true ∧ demoActive.phase ≠ Phase.Expired ∧
      demoActive.lastThrottleFlushAt + throttleWindowMs ≤ demoActive.now ∧
      (handleActivity demoActive).lastActivityAt = demoActive.now ∧
      (handleActivity demoActive).effectiveResets = demoActive.effectiveResets + 1) :=
  ⟨(claim_C8_throttling demoActive).1 10 (by decide),
    rfl, by decide, by decide,
    ((claim_C8_throttling demoActive).2 rfl (by decide) (by decide)).1,
    ((claim_C8_throttling demoActive).2 rfl (by decide) (by decide)).2⟩

theorem claim_C9_witness :
    0 < misConfig.idleTimeoutMs ∧
    (init misConfig true).warningLeadMs < (init misConfig true).idleTimeoutMs ∧
    (runEvents (init smallConfig true) (ticks 6)).phase = Phase.Warning ∧
    1 ≤ (runEvents (init smallConfig true) (ticks 6)).remainingSeconds :=
  ⟨by decide, claim_C9_no_negative_countdown.1 misConfig true (by decide),
    by decide,
    claim_C9_no_negative_countdown.2 smallConfig true (ticks 6) (by decide)⟩

end SessionIdleMonitor

namespace SessionStorageModel

/-- C10 counterexample: when localStorage holds the empty string — which is
not valid JSON (`JSON.parse("")` throws) — `if (persistedSession)` is falsy,
so getSession does not clear anything and instead returns the session held
in sessionStorage, contradicting the claim that any invalid-JSON localStorage
value makes getSession return null and clear both storages. -/
theorem claim_C10_counterexample :
    emptyLocalBrowser.localSession = some "" ∧
    demoParse "" = none ∧
    getSession demoParse emptyLocalBrowser = (some demoData, emptyLocalBrowser) := by
  refine ⟨rfl, rfl, ?_⟩
  rfl

/-- C10 (amended): if the value stored under the session key in localStorage
is non-empty and is not valid JSON, `getSession()` returns null and clears
the session key from both localStorage and sessionStorage, so a valid
session held in sessionStorage is discarded and never returned. -/
theorem claim_C10_invalid_local_json (parse : String → Option SessionData)
    (b : Browser) (raw : String)
    (hl : b.localSession = some raw) (hne : raw ≠ "") (hp : parse raw = none) :
    getSession parse b = (none, clearSession b) ∧
    (getSession parse b).2.localSession = none ∧
    (getSession parse b).2.sessionSession = none := by
  have hres : getSession parse b = (none, clearSession b) := by
    dsimp only [getSession]
    rw [hl]
    simp [truthy, hne, hp]
  exact ⟨hres, by rw [hres]; rfl, by rw [hres]; rfl⟩

theorem claim_C10_witness :
    badLocalBrowser.localSession = some "garbage" ∧
    "garbage" ≠ "" ∧
    demoParse "garbage" = none ∧
    getSession demoParse badLocalBrowser = (none, clearSession badLocalBrowser) :=
  ⟨rfl, by decide, rfl,
    (claim_C10_invalid_local_json demoParse badLocalBrowser "garbage"
      rfl (by decide) rfl).1⟩

end SessionStorageModel
